import Mathlib

/-!
Verification of the metadata introspection and cross-reference rendering
engine of `sphinxcontrib-pydantic`.

The Python sources under `src/sphinxcontrib/pydantic/` are shallowly
embedded below.  Live Python class metadata (module, qualified names,
`__mro__`, `model_fields`, `__pydantic_decorators__`, ...) is represented by
explicit records; the engine's pure functions are translated definition by
definition.  Python character-level operations (`"." in s`,
`s.rsplit(".", 1)`) are re-implemented over `List Char` so that they reduce
inside the kernel.
-/

namespace SphinxPydantic

/-- Python `"." in s`: whether the string contains a dot. -/
def strContainsDot (s : String) : Bool :=
  s.data.any (fun c => c = ('.'))

/-- Characters of `s` before the last dot, reversed accumulator helper.
Works on the reversed character list: drop up to and including the first
dot seen. -/
def dropThroughFirstDot : List Char → List Char
  | [] => []
  | c :: cs => if c = ('.') then cs else dropThroughFirstDot cs

/-- Characters of `s` after the last dot (empty if the final segment is
empty). Helper on the reversed character list: take until the first dot. -/
def takeUntilFirstDot : List Char → List Char
  | [] => []
  | c :: cs => if c = ('.') then [] else c :: takeUntilFirstDot cs

/-- Python `s.rsplit(".", 1)[0]`: everything before the last dot. -/
def beforeLastDot (s : String) : String :=
  String.mk ((dropThroughFirstDot s.data.reverse).reverse)

/-- Python `s.rsplit(".", 1)[-1]`: everything after the last dot. -/
def afterLastDot (s : String) : String :=
  String.mk ((takeUntilFirstDot s.data.reverse).reverse)

/-- A Python function object, as far as `get_defining_class_path` reads it:
its `__qualname__` and `__module__` attributes (either may be missing) and
its `__doc__`. -/
structure PyFunc where
  qualname : Option String
  module : Option String
  doc : Option String
deriving DecidableEq, Repr

/-- One entry of `model.__pydantic_decorators__.field_validators` /
`.model_validators`: the decorated function plus the decorator info
(`info.fields`, `info.mode`). `fields` is empty for model validators. -/
structure ValidatorDecorator where
  func : PyFunc
  fields : List String
  mode : String
deriving DecidableEq, Repr

/-- Pydantic's `@field_validator(*fields, mode=...)` decorator stores
`mode="after"` in the decorator info when the caller does not specify a
mode (the documented default of the external pydantic dependency). -/
def field_validator_decorator (func : PyFunc) (fields : List String)
    (mode : Option String) : ValidatorDecorator :=
  { func := func, fields := fields, mode := mode.getD ("after") }

/-- One class of a model's `__mro__`, as far as
`get_field_defining_class_path` reads it: its module and name, whether it
has a `model_fields` attribute, and the keys of the `__annotations__`
mapping visible on it. -/
structure PyClass where
  module : String
  name : String
  hasModelFields : Bool
  anns : List String
deriving DecidableEq, Repr

/-- A recognized pydantic model class: the metadata the engine reads off a
live class. `mro` is `__mro__` (the class itself first). `fieldValidators`
and `modelValidators` embed the ordered dicts of
`__pydantic_decorators__` (keys are unique in Python). `memberNames` are
the attribute names reachable on the class (Python `hasattr`).
`isRootModel` records whether the class derives from pydantic's
`RootModel` base (the single-field "root" model shape) and `isSettings`
whether it derives from `pydantic_settings.BaseSettings`. -/
structure PyModel where
  module : String
  name : String
  qualname : String
  doc : Option String
  mro : List PyClass
  modelFields : List String
  computedFields : List String
  fieldValidators : List (String × ValidatorDecorator)
  modelValidators : List (String × ValidatorDecorator)
  memberNames : List String
  isRootModel : Bool
  isSettings : Bool
deriving DecidableEq, Repr

/-- An arbitrary Python object handed to the engine: either a recognized
pydantic model class or anything else (carrying its `repr` string, used in
error messages). -/
inductive PyObj where
  | model (m : PyModel)
  | other (reprStr : String)
deriving DecidableEq, Repr

/-- `is_pydantic_model` from `_inspection/_model.py`: true exactly for
model classes. -/
def is_pydantic_model : PyObj → Bool
  | .model _ => true
  | .other _ => false

/-- The typed errors of `_inspection`: `TypeError` for a non-model input
(carrying the offending object's repr) and `KeyError` for an unknown
field/validator name (carrying the name). -/
inductive PyErr where
  | typeError (objRepr : String)
  | keyError (name : String)
deriving DecidableEq, Repr

/-- `f"{model.__module__}.{model.__name__}"`. -/
def model_path (m : PyModel) : String :=
  m.module ++ (".") ++ m.name

/-! ## `_inspection/_references.py` -/

/-- `ASTERISK_FIELD_NAME`: display name for validators that validate the
entire model. -/
def ASTERISK_FIELD_NAME : String := "all fields"

/-- `ValidatorFieldMap`: mapping between a validator and a field it
validates. -/
structure ValidatorFieldMap where
  field_name : String
  validator_name : String
  field_ref : String
  validator_ref : String
deriving DecidableEq, Repr

/-- `get_defining_class_path(func, model)`: the full path to the class
where a method was defined, derived from `func.__qualname__`; falls back
to the model being documented when the qualname is missing, empty, or has
no dot. -/
def get_defining_class_path (func : PyFunc) (model : PyModel) : String :=
  let module := func.module.getD model.module
  match func.qualname with
  | some q =>
      if !q.isEmpty && strContainsDot q then
        module ++ (".") ++ beforeLastDot q
      else
        model.module ++ (".") ++ model.name
  | none => model.module ++ (".") ++ model.name

/-- `get_field_defining_class_path(field_name, model)`: walk the MRO and
return the path of the first class that has `model_fields` and whose
`__annotations__` contain the field; fall back to the model itself. -/
def get_field_defining_class_path (field_name : String) (model : PyModel) :
    String :=
  match model.mro.find?
      (fun cls => cls.hasModelFields && cls.anns.contains field_name) with
  | some cls => cls.module ++ (".") ++ cls.name
  | none => model.module ++ (".") ++ model.name

/-- Rows contributed by a single `field_validators` entry in
`get_validator_field_mappings`: one `ValidatorFieldMap` per declared
target field, the wildcard `"*"` being replaced by `ASTERISK_FIELD_NAME`
and anchored on the model itself. -/
def field_validator_rows (m : PyModel) (validator_name : String)
    (dec : ValidatorDecorator) : List ValidatorFieldMap :=
  let validator_class_path := get_defining_class_path dec.func m
  dec.fields.map (fun field =>
    let field_name := if field == ("*") then ASTERISK_FIELD_NAME else field
    let field_class_path :=
      if field_name == ASTERISK_FIELD_NAME then model_path m
      else get_field_defining_class_path field_name m
    { field_name := field_name,
      validator_name := validator_name,
      field_ref := field_class_path ++ (".") ++ field_name,
      validator_ref := validator_class_path ++ (".") ++ validator_name })

/-- The row contributed by a single `model_validators` entry in
`get_validator_field_mappings`. -/
def model_validator_row (m : PyModel) (validator_name : String)
    (dec : ValidatorDecorator) : ValidatorFieldMap :=
  { field_name := ASTERISK_FIELD_NAME,
    validator_name := validator_name,
    field_ref := model_path m ++ (".") ++ ASTERISK_FIELD_NAME,
    validator_ref :=
      get_defining_class_path dec.func m ++ (".") ++ validator_name }

/-- `get_validator_field_mappings(model)`: all validator-field mappings,
field validators first (expanded over their declared fields), then model
validators (one row each). -/
def get_validator_field_mappings (m : PyModel) : List ValidatorFieldMap :=
  (m.fieldValidators.flatMap (fun p => field_validator_rows m p.1 p.2))
    ++ m.modelValidators.map (fun p => model_validator_row m p.1 p.2)

/-- `filter_mappings_by_validator(mappings, validator_name)`. -/
def filter_mappings_by_validator (mappings : List ValidatorFieldMap)
    (validator_name : String) : List ValidatorFieldMap :=
  mappings.filter (fun m => m.validator_name == validator_name)

/-- `filter_mappings_by_field(mappings, field_name)`: keeps rows whose
`field_name` matches or is `ASTERISK_FIELD_NAME` (Python membership in the
pair `(field_name, ASTERISK_FIELD_NAME)`). -/
def filter_mappings_by_field (mappings : List ValidatorFieldMap)
    (field_name : String) : List ValidatorFieldMap :=
  mappings.filter
    (fun m => m.field_name == field_name || m.field_name == ASTERISK_FIELD_NAME)

/-! ## `_rendering/_rst.py`: Python values, `repr`/`str`, formatting -/

/-- A Python runtime value, as far as `format_default_value` dispatches on
it: `noneVal` is `None`, `bool`/`int`/`float`/`str` the corresponding
builtins (a float carries its own `str()` rendering, which Python also
uses as its `repr()`), `list`/`tuple`/`dict`/`set` the builtin containers,
and `obj` any other object carrying its `repr()` string. -/
inductive PyVal where
  | noneVal
  | bool (b : Bool)
  | int (n : Int)
  | float (s : String)
  | str (s : String)
  | list (xs : List PyVal)
  | tuple (xs : List PyVal)
  | dict (xs : List (PyVal × PyVal))
  | set (xs : List PyVal)
  | obj (reprStr : String)

/-- The single-quote character, used by Python string `repr`. -/
def singleQuote : Char := '\''

/-- Escaping of one character inside a single-quoted Python string repr
(printable characters only: quotes and backslashes). -/
def escSingleQuoted (c : Char) : List Char :=
  if c = singleQuote then ['\\', singleQuote]
  else if c = ('\\') then ['\\', '\\']
  else [c]

/-- Python `repr` of a `str` for printable content: double quotes when the
string contains a single quote but no double quote, otherwise single
quotes with escaping. -/
def pyReprString (s : String) : String :=
  if s.data.contains singleQuote && !s.data.contains ('"') then
    "\"" ++ s ++ "\""
  else
    String.mk ((singleQuote :: s.data.flatMap escSingleQuoted) ++ [singleQuote])

mutual

/-- Python `repr` of a value (canonical debug representation). -/
def pyRepr : PyVal → String
  | .noneVal => "None"
  | .bool b => if b then "True" else "False"
  | .int n => toString n
  | .float s => s
  | .str s => pyReprString s
  | .list xs => "[" ++ pyReprJoin xs ++ "]"
  | .tuple [x] => "(" ++ pyRepr x ++ ",)"
  | .tuple xs => "(" ++ pyReprJoin xs ++ ")"
  | .dict xs =>
      "\x7b" ++ pyReprPairsJoin xs ++ "\x7d"
  | .set [] => "set()"
  | .set xs => "\x7b" ++ pyReprJoin xs ++ "\x7d"
  | .obj r => r
termination_by v => sizeOf v

/-- `", ".join(repr(x) for x in xs)`. -/
def pyReprJoin : List PyVal → String
  | [] => ""
  | [x] => pyRepr x
  | x :: xs => pyRepr x ++ ", " ++ pyReprJoin xs
termination_by xs => sizeOf xs

/-- `", ".join(f"{repr(k)}: {repr(v)}" for k, v in xs)`. -/
def pyReprPairsJoin : List (PyVal × PyVal) → String
  | [] => ""
  | [(k, v)] => pyRepr k ++ ": " ++ pyRepr v
  | (k, v) :: xs => pyRepr k ++ ": " ++ pyRepr v ++ ", " ++ pyReprPairsJoin xs
termination_by xs => sizeOf xs

end

/-- Python `str` of a value: differs from `repr` on `None`-like scalars and
strings; containers and arbitrary objects fall through to `repr`. -/
def pyStr : PyVal → String
  | .noneVal => "None"
  | .bool b => if b then "True" else "False"
  | .int n => toString n
  | .float s => s
  | .str s => s
  | v => pyRepr v

/-- `value is None`. -/
def isNoneVal : PyVal → Bool
  | .noneVal => true
  | _ => false

/-- `isinstance(value, str)`. -/
def isinstStr : PyVal → Bool
  | .str _ => true
  | _ => false

/-- `isinstance(value, bool)`. -/
def isinstBool : PyVal → Bool
  | .bool _ => true
  | _ => false

/-- `isinstance(value, (int, float))`: true for `bool` as well, since a
Python `bool` is an `int` subclass. -/
def isinstIntOrFloat : PyVal → Bool
  | .int _ => true
  | .float _ => true
  | .bool _ => true
  | _ => false

/-- `isinstance(value, (list, tuple, dict, set))`. -/
def isinstContainer : PyVal → Bool
  | .list _ => true
  | .tuple _ => true
  | .dict _ => true
  | .set _ => true
  | _ => false

/-- `format_default_value(value)` from `_rendering/_rst.py`: the exact
`is None` / `str` / `bool` / `(int, float)` / container / fallback chain
of the source (the `bool` test precedes the `(int, float)` test). -/
def format_default_value (value : PyVal) : String :=
  if isNoneVal value then "None"
  else if isinstStr value then pyRepr value
  else if isinstBool value then pyStr value
  else if isinstIntOrFloat value then pyStr value
  else if isinstContainer value then pyRepr value
  else pyRepr value

/-- A Python type annotation, as far as `format_type_annotation` (renamed
here to `format_type_ann`) dispatches on it: `noneVal` is the `None`
object used as an annotation, `noneType` is `type(None)`, `cls` any other
plain class (rendered by `__name__`), `strAnn` a string forward
reference, `generic` a parameterized type carrying the display name of its
`__origin__`, whether that origin is `typing.Union`, and its `__args__`,
and `other` anything else carrying its `str()` form. -/
inductive PyType where
  | noneVal
  | noneType
  | cls (name : String)
  | strAnn (s : String)
  | generic (originName : String) (isUnion : Bool) (args : List PyType)
  | other (strForm : String)

/-- `a is type(None)` on an annotation argument. -/
def isNoneTypeAnn : PyType → Bool
  | .noneType => true
  | _ => false

mutual

/-- `format_type_annotation(annotation)` from `_rendering/_rst.py`
(renamed `format_type_ann`): `None`/`NoneType` render as `"None"`, plain
classes by name, string forward references verbatim; a 2-member union
containing `NoneType` collapses to `"<other> | None"`, other unions join
with `" | "`, parameterized generics render `Name[args]`, and everything
else falls back to its `str()` form. (A union whose two members are both
`NoneType` cannot be constructed by `typing`; the source would raise
`IndexError` there, here it renders via the general union join.) -/
def format_type_ann : PyType → String
  | .noneVal => "None"
  | .noneType => "None"
  | .cls name => name
  | .strAnn s => s
  | .generic originName isUnion args =>
      match args with
      | [] => originName
      | [a, b] =>
          if isUnion then
            if isNoneTypeAnn b && !isNoneTypeAnn a then
              format_type_ann a ++ " | None"
            else if isNoneTypeAnn a && !isNoneTypeAnn b then
              format_type_ann b ++ " | None"
            else
              format_type_ann a ++ " | " ++ format_type_ann b
          else
            originName ++ "[" ++ format_type_ann a ++ ", "
              ++ format_type_ann b ++ "]"
      | a :: args' =>
          if isUnion then
            format_type_ann a ++ " | " ++ joinUnionArgs args'
          else
            originName ++ "[" ++ format_type_ann a
              ++ joinGenericArgs args' ++ "]"
  | .other s => s

/-- Tail of `" | ".join(...)` over union members. -/
def joinUnionArgs : List PyType → String
  | [] => ""
  | [a] => format_type_ann a
  | a :: args => format_type_ann a ++ " | " ++ joinUnionArgs args

/-- Tail of `", ".join(...)` over generic arguments (with the leading
separator included). -/
def joinGenericArgs : List PyType → String
  | [] => ""
  | a :: args => ", " ++ format_type_ann a ++ joinGenericArgs args

end

/-! ## `_inspection/_field.py` (rendering-relevant part) and
`_rendering/_summary.py` -/

/-- The slice of `FieldInfo` that `generate_field_summary_table` reads:
name, annotation, default value and its presence flags, required flag,
alias (Python `None` or a string) and the constraints mapping. -/
structure FieldInfoR where
  name : String
  ann : PyType
  default : PyVal
  has_default : Bool
  has_default_factory : Bool
  is_required : Bool
  aliasOpt : Option String
  constraints : List (String × PyVal)

/-- Python truthiness of `field.alias` (`None` and `""` are falsy). -/
def aliasTruthy (f : FieldInfoR) : Bool :=
  match f.aliasOpt with
  | some a => !a.isEmpty
  | none => false

/-- Python truthiness of `field.constraints` (an empty dict is falsy). -/
def constraintsTruthy (f : FieldInfoR) : Bool :=
  !f.constraints.isEmpty

/-- One `key=value` part of `_format_constraints` (the `pattern` key is
specially backtick-quoted); `{value}` interpolates via `str(value)`. -/
def constraint_part (kv : String × PyVal) : String :=
  if kv.1 == "pattern" then "pattern=``" ++ pyStr kv.2 ++ "``"
  else kv.1 ++ "=" ++ pyStr kv.2

/-- `_format_constraints(constraints)` from `_rendering/_summary.py`. -/
def format_constraints (constraints : List (String × PyVal)) : String :=
  String.intercalate (", ") (constraints.map constraint_part)

/-- The dynamically computed column list of
`generate_field_summary_table`: `Field` and `Type` always, `Required` and
`Default` under their flags, `Alias` and `Constraints` additionally only
when some field in the batch actually carries the attribute. -/
def summaryColumns (fields : List FieldInfoR)
    (show_alias show_default show_required show_constraints : Bool) :
    List String :=
  ["Field", "Type"]
    ++ (if show_required then ["Required"] else [])
    ++ (if show_default then ["Default"] else [])
    ++ (if show_alias && fields.any aliasTruthy then ["Alias"] else [])
    ++ (if show_constraints && fields.any constraintsTruthy then
          ["Constraints"] else [])

/-- The cell `_get_field_row_data` emits for one column of one field;
`none` for an unrecognized column name (the source's if/elif chain simply
appends nothing there). -/
def field_cell (field : FieldInfoR) (col : String) : Option String :=
  if col == "Field" then
    some ("``" ++ field.name ++ "``")
  else if col == "Type" then
    some ("``" ++ format_type_ann field.ann ++ "``")
  else if col == "Required" then
    some (if field.is_required then "Yes" else "No")
  else if col == "Default" then
    some (if field.has_default then
            "``" ++ format_default_value field.default ++ "``"
          else if field.has_default_factory then "*factory*" else "")
  else if col == "Alias" then
    some (match field.aliasOpt with
          | some a => if a.isEmpty then "" else "``" ++ a ++ "``"
          | none => "")
  else if col == "Constraints" then
    some (if field.constraints.isEmpty then ""
          else format_constraints field.constraints)
  else none

/-- `_get_field_row_data(field, columns)`. -/
def get_field_row_data (field : FieldInfoR) (columns : List String) :
    List String :=
  columns.filterMap (field_cell field)

/-- The lines emitted for one list-table row: `"   * - "` before the first
cell, `"     - "` before each further cell. -/
def table_row_lines : List String → List String
  | [] => []
  | c :: cs => ("   * - " ++ c) :: cs.map (fun cell => "     - " ++ cell)

/-- `generate_field_summary_table(fields, *, show_alias, show_default,
show_required, show_constraints)` from `_rendering/_summary.py`: empty
input yields an empty result; otherwise the fixed list-table header, the
header row over the computed columns, one data row per field **in input
order**, and a trailing blank line. -/
def generate_field_summary_table (fields : List FieldInfoR)
    (show_alias show_default show_required show_constraints : Bool) :
    List String :=
  if fields.isEmpty then []
  else
    let columns :=
      summaryColumns fields show_alias show_default show_required
        show_constraints
    ["", ".. list-table:: Fields", "   :header-rows: 1",
     "   :widths: auto", ""]
      ++ table_row_lines columns
      ++ fields.flatMap (fun f => table_row_lines (get_field_row_data f columns))
      ++ [""]

/-! ## `_inspection/_validator.py` -/

/-- `ValidatorInfo` from `_inspection/_validator.py` (the
`field_class_paths` dict is embedded as an association list in
comprehension order). -/
structure ValidatorInfo where
  name : String
  fields : List String
  mode : String
  docstring : Option String
  is_model_validator : Bool
  defining_class_path : String
  field_class_paths : List (String × String)
deriving DecidableEq, Repr

/-- `_get_field_validator_info(model, validator_name, decorators)`. -/
def field_validator_info (model : PyModel) (validator_name : String)
    (dec : ValidatorDecorator) : ValidatorInfo :=
  { name := validator_name,
    fields := dec.fields,
    mode := dec.mode,
    docstring := dec.func.doc,
    is_model_validator := false,
    defining_class_path := get_defining_class_path dec.func model,
    field_class_paths :=
      (dec.fields.filter (fun f => !(f == ("*")))).map
        (fun f => (f, get_field_defining_class_path f model)) }

/-- `_get_model_validator_info(model, validator_name, decorators)`. -/
def model_validator_info (model : PyModel) (validator_name : String)
    (dec : ValidatorDecorator) : ValidatorInfo :=
  { name := validator_name,
    fields := [],
    mode := dec.mode,
    docstring := dec.func.doc,
    is_model_validator := true,
    defining_class_path := get_defining_class_path dec.func model,
    field_class_paths := [] }

/-- `get_validator_info(model, validator_name)` from
`_inspection/_validator.py`: `TypeError` for a non-model input, then the
field-validator registry is consulted before the model-validator registry,
and `KeyError` is raised when the name is in neither. -/
def get_validator_info (obj : PyObj) (validator_name : String) :
    Except PyErr ValidatorInfo :=
  match obj with
  | .other r => .error (.typeError r)
  | .model model =>
      match model.fieldValidators.lookup validator_name with
      | some dec => .ok (field_validator_info model validator_name dec)
      | none =>
          match model.modelValidators.lookup validator_name with
          | some dec => .ok (model_validator_info model validator_name dec)
          | none => .error (.keyError validator_name)

/-! ## `_inspection/_model.py` -/

/-- Modelled from the spec: `is_root_model` is exported by the
`_inspection` package `__init__` and exercised by the unit tests, but its
definition is absent from `src/_inspection/_model.py`; per the spec it is
true exactly for the single-field "root" model shape (a class deriving
from pydantic's `RootModel` base), which the embedding carries as class
metadata. -/
def is_root_model (m : PyModel) : Bool :=
  m.isRootModel

/-- Modelled from the spec: `is_pydantic_settings` is likewise exported
and tested but absent from `src/_inspection/_model.py`; per the spec it is
true exactly for settings-style models (classes deriving from
`pydantic_settings.BaseSettings`), carried as class metadata. -/
def is_pydantic_settings (m : PyModel) : Bool :=
  m.isSettings

/-- `ModelInfo` from `_inspection/_model.py`. The `is_root_model` and
`is_settings` flags are modelled from the spec (the `ModelInfo` dataclass
in src/ lacks them although the package exports and the unit tests rely on
them); the remaining components follow the source. -/
structure ModelInfo where
  name : String
  module : String
  qualname : String
  docstring : Option String
  field_names : List String
  computed_field_names : List String
  validator_names : List String
  model_validator_names : List String
  is_root_model : Bool
  is_settings : Bool
  model : PyModel
deriving DecidableEq, Repr

/-- `get_model_info(model)` from `_inspection/_model.py`: `TypeError` for
a non-model input; otherwise the aggregated class metadata is copied into
a `ModelInfo` (field/computed-field/validator names are read from the
class's own aggregated registries, which already include inherited
members). The two shape flags are modelled from the spec (see
`is_root_model` and `is_pydantic_settings`). -/
def get_model_info (obj : PyObj) : Except PyErr ModelInfo :=
  match obj with
  | .other r => .error (.typeError r)
  | .model m =>
      .ok { name := m.name,
            module := m.module,
            qualname := m.qualname,
            docstring := m.doc,
            field_names := m.modelFields,
            computed_field_names := m.computedFields,
            validator_names := m.fieldValidators.map Prod.fst,
            model_validator_names := m.modelValidators.map Prod.fst,
            is_root_model := is_root_model m,
            is_settings := is_pydantic_settings m,
            model := m }

/-! ## Inherited-validator reference rewriting -/

/-- Splits a fully qualified reference `module.Ancestor.member` into
`(module, Ancestor, member)`; `none` when the reference has fewer than
three dot-separated segments. -/
def parseRef (ref : String) : Option (String × String × String) :=
  let rest := beforeLastDot ref
  if strContainsDot ref && strContainsDot rest then
    some (beforeLastDot rest, afterLastDot rest, afterLastDot ref)
  else
    none

/-- Whether `clsName` names a proper ancestor of `m` (a class of
`m.__mro__` other than `m` itself, which is the head). -/
def is_ancestor_name (m : PyModel) (clsName : String) : Bool :=
  (m.mro.drop 1).any (fun c => c.name == clsName)

/-- Modelled from the spec: `resolve_inherited_validator_reference` is
absent from src/ (only its unit tests remain). Per the spec §4.4 it
rewrites a validator reference pointing at an ancestor back onto the
currently documented class, but only if the ancestor is genuinely in the
class's ancestry, the validator name is actually a member of the class
being documented, and the ancestor's name is in the caller-supplied set of
inherited-members class names; in every other case (including when no
inherited-members set is supplied) the original reference is returned
unchanged. -/
def resolve_inherited_validator_reference (model : PyModel) (ref : String)
    (inherited_members : Option (List String)) : String :=
  match inherited_members with
  | none => ref
  | some members =>
      match parseRef ref with
      | none => ref
      | some (_, ancestorName, vname) =>
          if is_ancestor_name model ancestorName
              && model.memberNames.contains vname
              && members.contains ancestorName then
            model_path model ++ (".") ++ vname
          else
            ref

/-! ## Theorems -/

/-- Claim C4: `filter_mappings_by_field(ms, f)` is a sublist of `ms`
containing exactly the rows whose `field_name` equals `f` plus every row
whose `field_name` is the `ALL_FIELDS` sentinel, and nothing else;
`filter_mappings_by_validator(ms, v)` likewise returns exactly the rows
whose `validator_name` equals `v`. Both are pure filters over the
already-built list. -/
theorem C4_filters_are_pure_filters :
    ∀ (ms : List ValidatorFieldMap) (f v : String),
      List.Sublist (filter_mappings_by_field ms f) ms
      ∧ (∀ x, x ∈ filter_mappings_by_field ms f ↔
            x ∈ ms ∧ (x.field_name = f ∨ x.field_name = ASTERISK_FIELD_NAME))
      ∧ List.Sublist (filter_mappings_by_validator ms v) ms
      ∧ (∀ x, x ∈ filter_mappings_by_validator ms v ↔
            x ∈ ms ∧ x.validator_name = v) := by
  intro ms f v
  refine ⟨List.filter_sublist ms, ?_, List.filter_sublist ms, ?_⟩
  · intro x
    simp [filter_mappings_by_field, List.mem_filter]
  · intro x
    simp [filter_mappings_by_validator, List.mem_filter]

/-- Claim C6: `format_default_value` renders booleans before the integer
case (`True`/`False`, never `"1"`/`"0"`), `None` as `"None"`, non-bool
ints and floats via their natural string form, and every other value
(strings, sequences, mappings, sets, arbitrary objects) via its canonical
debug representation `repr`. -/
theorem C6_format_default_dispatch :
    format_default_value .noneVal = "None"
    ∧ format_default_value (.bool true) = "True"
    ∧ format_default_value (.bool false) = "False"
    ∧ format_default_value (.bool true) ≠ "1"
    ∧ format_default_value (.bool false) ≠ "0"
    ∧ (∀ n : Int, format_default_value (.int n) = toString n)
    ∧ (∀ s : String, format_default_value (.float s) = s)
    ∧ (∀ s : String, format_default_value (.str s) = pyRepr (.str s))
    ∧ (∀ xs : List PyVal,
        format_default_value (.list xs) = pyRepr (.list xs))
    ∧ (∀ xs : List PyVal,
        format_default_value (.tuple xs) = pyRepr (.tuple xs))
    ∧ (∀ xs : List (PyVal × PyVal),
        format_default_value (.dict xs) = pyRepr (.dict xs))
    ∧ (∀ xs : List PyVal,
        format_default_value (.set xs) = pyRepr (.set xs))
    ∧ (∀ r : String, format_default_value (.obj r) = pyRepr (.obj r)) := by
  refine ⟨rfl, rfl, rfl, by decide, by decide, fun n => rfl, fun s => rfl,
    fun s => rfl, fun xs => rfl, fun xs => rfl, fun xs => rfl, fun xs => rfl,
    fun r => rfl⟩

/-- Claim C9: for every class accepted by the model introspector the
returned descriptor exposes the `is_root_model` and `is_settings` flags
(true exactly for the root-model / settings shapes, modelled from the
spec) alongside the name, module, qualname, docstring, field-name,
computed-field-name and validator-name components; non-model input raises
the not-a-model error. -/
theorem C9_model_info_components :
    ∀ (m : PyModel) (r : String),
      (∃ msg, get_model_info (.other r) = .error (.typeError msg))
      ∧ (∃ info, get_model_info (.model m) = .ok info
          ∧ info.name = m.name ∧ info.module = m.module
          ∧ info.qualname = m.qualname ∧ info.docstring = m.doc
          ∧ info.field_names = m.modelFields
          ∧ info.computed_field_names = m.computedFields
          ∧ info.validator_names = m.fieldValidators.map Prod.fst
          ∧ info.model_validator_names = m.modelValidators.map Prod.fst
          ∧ (info.is_root_model = true ↔ is_root_model m = true)
          ∧ (info.is_settings = true ↔ is_pydantic_settings m = true)) := by
  intro m r
  exact ⟨⟨r, rfl⟩, ⟨_, rfl, rfl, rfl, rfl, rfl, rfl, rfl, rfl, rfl,
    Iff.rfl, Iff.rfl⟩⟩

/-- Claim C2: for a reference `p.Base.v` to a validator `v` carried by an
ancestor `Base`: with no inherited-members set supplied the reference is
returned unchanged (still targeting `Base`); it is rewritten onto the
currently documented class exactly when `Base` is genuinely in the class's
ancestry, `v` is actually a member of the class, and `Base` is in the
caller-supplied inherited-members set; in every other case the original
reference is returned unchanged. -/
theorem C2_inherited_reference_rewrite :
    ∀ (m : PyModel) (ref p base v : String) (s : List String),
      parseRef ref = some (p, base, v) →
      resolve_inherited_validator_reference m ref none = ref
      ∧ ((is_ancestor_name m base && m.memberNames.contains v
            && s.contains base) = true →
          resolve_inherited_validator_reference m ref (some s)
            = model_path m ++ (".") ++ v)
      ∧ ((is_ancestor_name m base && m.memberNames.contains v
            && s.contains base) = false →
          resolve_inherited_validator_reference m ref (some s) = ref) := by
  intro m ref p base v s hparse
  refine ⟨rfl, ?_, ?_⟩ <;> intro h <;>
    · unfold resolve_inherited_validator_reference
      rw [hparse]
      simp only [h, if_true, Bool.false_eq_true, if_false]

/-- Concrete scenario for C2: `Child(Base)` with `Base`'s validator `v`;
without an inherited-members set the reference keeps targeting `Base`,
with `inherited_members = ["Base"]` it is rewritten onto `Child`, and with
an unrelated set it is unchanged. -/
def childModelC2 : PyModel :=
  { module := "mod", name := "Child", qualname := "Child", doc := none,
    mro := [⟨"mod", "Child", true, []⟩, ⟨"mod", "Base", true, ["f"]⟩],
    modelFields := ["f"], computedFields := [],
    fieldValidators :=
      [("v", ⟨⟨some ("Base.v"), some ("mod"), none⟩, ["f"], "after"⟩)],
    modelValidators := [], memberNames := ["f", "v"],
    isRootModel := false, isSettings := false }

/-- Witness for C2 at `childModelC2` and `ref = "mod.Base.v"`. -/
theorem C2_witness :
    resolve_inherited_validator_reference childModelC2 ("mod.Base.v") none
      = "mod.Base.v"
    ∧ resolve_inherited_validator_reference childModelC2 ("mod.Base.v")
        (some ["Base"]) = "mod.Child.v"
    ∧ resolve_inherited_validator_reference childModelC2 ("mod.Base.v")
        (some ["OtherClass"]) = "mod.Base.v" := by
  have h := C2_inherited_reference_rewrite childModelC2 ("mod.Base.v")
    ("mod") ("Base") ("v") ["Base"] (by decide)
  have h' := C2_inherited_reference_rewrite childModelC2 ("mod.Base.v")
    ("mod") ("Base") ("v") ["OtherClass"] (by decide)
  exact ⟨h.1, h.2.1 (by decide), h'.2.2 (by decide)⟩

/-- Claim C5: the field defining-class lookup walks the resolution order
from most derived to most base and returns the first class whose own
declaration set contains the field; in particular a class that re-declares
a field directly is itself returned, never the ancestor that first
declared it, and when no class in the walk declares the field the lookup
falls back to the model's own path. -/
theorem C5_field_defining_class :
    (∀ (m : PyModel) (f : String) (c : PyClass) (rest : List PyClass),
        m.mro = c :: rest → c.module = m.module → c.name = m.name →
        c.hasModelFields = true → f ∈ c.anns →
        get_field_defining_class_path f m = model_path m)
    ∧ (∀ (m : PyModel) (f : String) (c : PyClass),
        m.mro.find? (fun c => c.hasModelFields && c.anns.contains f)
          = some c →
        get_field_defining_class_path f m = c.module ++ (".") ++ c.name)
    ∧ (∀ (m : PyModel) (f : String),
        (∀ c ∈ m.mro, ¬(c.hasModelFields = true ∧ f ∈ c.anns)) →
        get_field_defining_class_path f m = model_path m) := by
  refine ⟨?_, ?_, ?_⟩
  · intro m f c rest hmro hmod hname hmf hf
    have hpred :
        (fun cls : PyClass => cls.hasModelFields && cls.anns.contains f) c
          = true := by
      simp only [hmf, Bool.true_and]
      exact List.elem_eq_true_of_mem hf
    unfold get_field_defining_class_path
    rw [hmro, List.find?_cons_of_pos rest hpred]
    show c.module ++ (".") ++ c.name = model_path m
    rw [hmod, hname]
    rfl
  · intro m f c hfind
    unfold get_field_defining_class_path
    rw [hfind]
  · intro m f hnone
    have hfind :
        m.mro.find? (fun c => c.hasModelFields && c.anns.contains f)
          = none := by
      rw [List.find?_eq_none]
      intro c hc hcontra
      rw [Bool.and_eq_true] at hcontra
      exact hnone c hc ⟨hcontra.1, List.mem_of_elem_eq_true hcontra.2⟩
    unfold get_field_defining_class_path
    rw [hfind]
    rfl

/-- Concrete scenario for C5: `ChildOv(BaseOv)` re-declares field `f`
first declared on `BaseOv`. -/
def childOverrideModel : PyModel :=
  { module := "mod", name := "ChildOv", qualname := "ChildOv", doc := none,
    mro := [⟨"mod", "ChildOv", true, ["f"]⟩, ⟨"mod", "BaseOv", true, ["f", "g"]⟩],
    modelFields := ["f", "g"], computedFields := [],
    fieldValidators := [], modelValidators := [],
    memberNames := ["f", "g"], isRootModel := false, isSettings := false }

/-- Witness for C5 at `childOverrideModel`: the override is resolved to
the subclass itself, and a never-declared field falls back to the model's
own path. -/
theorem C5_witness :
    get_field_defining_class_path ("f") childOverrideModel = "mod.ChildOv"
    ∧ get_field_defining_class_path ("nope") childOverrideModel
        = "mod.ChildOv" := by
  constructor
  · exact C5_field_defining_class.1 childOverrideModel ("f")
      ⟨"mod", "ChildOv", true, ["f"]⟩
      [⟨"mod", "BaseOv", true, ["f", "g"]⟩] rfl rfl rfl rfl (by decide)
  · exact C5_field_defining_class.2.2 childOverrideModel ("nope")
      (by decide)

/-- Claim C7: with no field in the batch carrying an alias the summary
table has no `Alias` column even when `show_alias` is on; the
`Constraints` column appears exactly when `show_constraints` is on and
some field has a non-empty constraints mapping; `Field` and `Type` are
always present; and an empty input list yields an empty result. -/
theorem C7_dynamic_columns :
    (∀ sa sd sr sc : Bool,
        generate_field_summary_table [] sa sd sr sc = [])
    ∧ (∀ (fields : List FieldInfoR) (sd sr sc : Bool),
        (∀ f ∈ fields, aliasTruthy f = false) →
        ("Alias") ∉ summaryColumns fields true sd sr sc)
    ∧ (∀ (fields : List FieldInfoR) (sa sd sr sc : Bool),
        ("Constraints") ∈ summaryColumns fields sa sd sr sc ↔
          sc = true ∧ fields.any constraintsTruthy = true)
    ∧ (∀ (fields : List FieldInfoR) (sa sd sr sc : Bool),
        ("Field") ∈ summaryColumns fields sa sd sr sc
        ∧ ("Type") ∈ summaryColumns fields sa sd sr sc) := by
  refine ⟨fun sa sd sr sc => rfl, ?_, ?_, ?_⟩
  · intro fields sd sr sc hnone
    have hany : fields.any aliasTruthy = false := by
      rw [List.any_eq_false]
      intro f hf
      simp [hnone f hf]
    cases sr <;> cases sd <;>
      cases hc : fields.any constraintsTruthy <;> cases sc <;>
        simp [summaryColumns, hany, hc]
  · intro fields sa sd sr sc
    cases sr <;> cases sd <;> cases sc <;>
      cases hc : fields.any constraintsTruthy <;>
        cases ha : fields.any aliasTruthy <;> cases sa <;>
          simp [summaryColumns, hc, ha]
  · intro fields sa sd sr sc
    constructor <;> simp [summaryColumns]

/-- A concrete field without alias and without constraints for the C7
witness. -/
def plainFieldC7 : FieldInfoR :=
  { name := "count", ann := .cls ("int"), default := .int 0,
    has_default := true, has_default_factory := false, is_required := false,
    aliasOpt := none, constraints := [] }

/-- Witness for C7: with only alias-free fields the `Alias` column is
absent even with `show_alias = true`, and the empty batch renders
nothing. -/
theorem C7_witness :
    ("Alias") ∉ summaryColumns [plainFieldC7] true true true true
    ∧ generate_field_summary_table [] true true true true = [] := by
  exact ⟨C7_dynamic_columns.2.1 [plainFieldC7] true true true (by decide),
    C7_dynamic_columns.1 true true true true⟩

/-- Every row contributed by a field-validator registry entry carries that
entry's key as its `validator_name`. -/
lemma validator_name_of_mem_field_rows {m : PyModel} {k : String}
    {dec : ValidatorDecorator} {r : ValidatorFieldMap}
    (h : r ∈ field_validator_rows m k dec) : r.validator_name = k := by
  simp only [field_validator_rows, List.mem_map] at h
  obtain ⟨field, _, rfl⟩ := h
  rfl

/-- `filter_mappings_by_validator` distributes over appended mapping
lists. -/
lemma filter_validator_append (a b : List ValidatorFieldMap) (v : String) :
    filter_mappings_by_validator (a ++ b) v
      = filter_mappings_by_validator a v ++ filter_mappings_by_validator b v :=
  List.filter_append a b

/-- Filtering a field-validator entry's own rows by its own name keeps
them all. -/
lemma filter_field_rows_self (m : PyModel) (v : String)
    (dec : ValidatorDecorator) :
    filter_mappings_by_validator (field_validator_rows m v dec) v
      = field_validator_rows m v dec := by
  apply List.filter_eq_self.mpr
  intro r hr
  simp [validator_name_of_mem_field_rows hr]

/-- Filtering another entry's rows by an unrelated validator name drops
them all. -/
lemma filter_field_rows_ne {m : PyModel} {k v : String}
    {dec : ValidatorDecorator} (hne : k ≠ v) :
    filter_mappings_by_validator (field_validator_rows m k dec) v = [] := by
  apply List.filter_eq_nil_iff.mpr
  intro r hr
  simp [validator_name_of_mem_field_rows hr, hne]

/-- With unique registry keys, filtering the concatenated field-validator
rows by one key isolates exactly that entry's rows. -/
lemma filter_flatMap_unique (m : PyModel) (vname : String)
    (dec : ValidatorDecorator) :
    ∀ (l : List (String × ValidatorDecorator)),
      (vname, dec) ∈ l → (l.map Prod.fst).Nodup →
      filter_mappings_by_validator
          (l.flatMap (fun p => field_validator_rows m p.1 p.2)) vname
        = field_validator_rows m vname dec := by
  intro l
  induction l with
  | nil => intro hmem _; cases hmem
  | cons hd tl ih =>
    intro hmem hnd
    obtain ⟨k, d⟩ := hd
    rw [List.flatMap_cons, filter_validator_append]
    rw [List.map_cons, List.nodup_cons] at hnd
    rcases List.mem_cons.mp hmem with heq | htl
    · injection heq with h1 h2
      subst h1
      subst h2
      have htlnil :
          filter_mappings_by_validator
              (tl.flatMap (fun p => field_validator_rows m p.1 p.2)) vname
            = [] := by
        apply List.filter_eq_nil_iff.mpr
        intro r hr
        obtain ⟨p, hp, hrp⟩ := List.mem_flatMap.mp hr
        have hrn : r.validator_name = p.1 :=
          validator_name_of_mem_field_rows hrp
        have hne : p.1 ≠ vname := by
          intro h
          have hkeys : p.1 ∈ tl.map Prod.fst :=
            List.mem_map_of_mem Prod.fst hp
          rw [h] at hkeys
          exact hnd.1 hkeys
        simp [hrn, hne]
      rw [filter_field_rows_self, htlnil, List.append_nil]
    · have hkne : k ≠ vname := by
        intro h
        have hkeys : (vname, dec).1 ∈ tl.map Prod.fst :=
          List.mem_map_of_mem Prod.fst htl
        rw [← h] at hkeys
        exact hnd.1 hkeys
      rw [filter_field_rows_ne hkne, List.nil_append]
      exact ih htl hnd.2

/-- Claim C3: a field validator whose declared target list is exactly the
wildcard `("*",)` contributes exactly one mapping row, with the
`ALL_FIELDS` sentinel as `field_name` and a `field_ref` anchored on the
model's own path, regardless of how many fields the model declares. -/
theorem C3_wildcard_single_row :
    ∀ (m : PyModel) (vname : String) (dec : ValidatorDecorator),
      (vname, dec) ∈ m.fieldValidators →
      dec.fields = ["*"] →
      (m.fieldValidators.map Prod.fst).Nodup →
      vname ∉ m.modelValidators.map Prod.fst →
      filter_mappings_by_validator (get_validator_field_mappings m) vname
        = [{ field_name := ASTERISK_FIELD_NAME,
             validator_name := vname,
             field_ref := model_path m ++ (".") ++ ASTERISK_FIELD_NAME,
             validator_ref :=
               get_defining_class_path dec.func m ++ (".") ++ vname }] := by
  intro m vname dec hmem hfields hnd hnotmv
  unfold get_validator_field_mappings
  rw [filter_validator_append,
    filter_flatMap_unique m vname dec m.fieldValidators hmem hnd]
  have hmv :
      filter_mappings_by_validator
          (m.modelValidators.map (fun p => model_validator_row m p.1 p.2))
          vname
        = [] := by
    apply List.filter_eq_nil_iff.mpr
    intro r hr
    obtain ⟨p, hp, rfl⟩ := List.mem_map.mp hr
    have hne : p.1 ≠ vname := by
      intro h
      exact hnotmv (h ▸ List.mem_map_of_mem Prod.fst hp)
    simp [model_validator_row, hne]
  rw [hmv, List.append_nil]
  simp [field_validator_rows, hfields]

/-- Concrete model for the C3 witness: three fields, one wildcard field
validator. -/
def wildcardModelC3 : PyModel :=
  { module := "m", name := "M", qualname := "M", doc := none,
    mro := [⟨"m", "M", true, ["a", "b", "c"]⟩],
    modelFields := ["a", "b", "c"], computedFields := [],
    fieldValidators :=
      [("v", ⟨⟨some ("M.v"), some ("m"), none⟩, ["*"], "after"⟩)],
    modelValidators := [], memberNames := ["a", "b", "c", "v"],
    isRootModel := false, isSettings := false }

/-- Witness for C3 at `wildcardModelC3`: the three-field model's wildcard
validator yields exactly one sentinel row anchored on the model itself. -/
theorem C3_witness :
    filter_mappings_by_validator
        (get_validator_field_mappings wildcardModelC3) ("v")
      = [{ field_name := ASTERISK_FIELD_NAME,
           validator_name := "v",
           field_ref := model_path wildcardModelC3 ++ (".")
             ++ ASTERISK_FIELD_NAME,
           validator_ref :=
             get_defining_class_path
               ⟨some ("M.v"), some ("m"), none⟩ wildcardModelC3
               ++ (".") ++ "v" }] :=
  C3_wildcard_single_row wildcardModelC3 ("v")
    ⟨⟨some ("M.v"), some ("m"), none⟩, ["*"], "after"⟩
    (by decide) rfl (by decide) (by decide)

/-- Concrete model for C10: one field validator targeting the wildcard
`"*"`. -/
def wildcardModelC10 : PyModel :=
  { module := "m", name := "M", qualname := "M", doc := none,
    mro := [⟨"m", "M", true, ["x"]⟩],
    modelFields := ["x"], computedFields := [],
    fieldValidators :=
      [("v", ⟨⟨some ("M.v"), some ("m"), none⟩, ["*"], "after"⟩)],
    modelValidators := [], memberNames := ["x", "v"],
    isRootModel := false, isSettings := false }

/-- Concrete model for C10: the same shape but with a genuine field
literally named `"all fields"`, targeted by name by the validator. -/
def allFieldsNameModelC10 : PyModel :=
  { module := "m", name := "M", qualname := "M", doc := none,
    mro := [⟨"m", "M", true, ["all fields"]⟩],
    modelFields := ["all fields"], computedFields := [],
    fieldValidators :=
      [("v", ⟨⟨some ("M.v"), some ("m"), none⟩, ["all fields"], "after"⟩)],
    modelValidators := [], memberNames := ["all fields", "v"],
    isRootModel := false, isSettings := false }

/-- Concrete model for the C10/C8 witnesses: a model-level validator. -/
def modelValModelC10 : PyModel :=
  { module := "m", name := "M", qualname := "M", doc := none,
    mro := [⟨"m", "M", true, ["x"]⟩],
    modelFields := ["x"], computedFields := [],
    fieldValidators := [],
    modelValidators :=
      [("mv", ⟨⟨some ("M.mv"), some ("m"), none⟩, [], "before"⟩)],
    memberNames := ["x", "mv"],
    isRootModel := false, isSettings := false }

/-- Claim C10: the `ALL_FIELDS` sentinel is the literal string
`"all fields"` sharing the namespace of real field names: wildcard and
model-validator rows carry it as `field_name`, filtering by
`"all fields"` returns exactly the rows carrying the sentinel string, and
a mapping for a genuine field literally named `"all fields"` is
indistinguishable from a wildcard row at the public interface. -/
theorem C10_sentinel_shares_namespace :
    ASTERISK_FIELD_NAME = "all fields"
    ∧ (∀ ms, filter_mappings_by_field ms ("all fields")
          = ms.filter (fun r => r.field_name == "all fields"))
    ∧ (∀ (m : PyModel) (vname : String) (dec : ValidatorDecorator),
        (vname, dec) ∈ m.modelValidators →
        ({ field_name := ASTERISK_FIELD_NAME, validator_name := vname,
           field_ref := model_path m ++ (".") ++ ASTERISK_FIELD_NAME,
           validator_ref :=
             get_defining_class_path dec.func m ++ (".") ++ vname } :
          ValidatorFieldMap) ∈ get_validator_field_mappings m)
    ∧ (∀ (m : PyModel) (vname : String) (dec : ValidatorDecorator),
        (vname, dec) ∈ m.fieldValidators → ("*") ∈ dec.fields →
        ({ field_name := ASTERISK_FIELD_NAME, validator_name := vname,
           field_ref := model_path m ++ (".") ++ ASTERISK_FIELD_NAME,
           validator_ref :=
             get_defining_class_path dec.func m ++ (".") ++ vname } :
          ValidatorFieldMap) ∈ get_validator_field_mappings m)
    ∧ get_validator_field_mappings allFieldsNameModelC10
        = get_validator_field_mappings wildcardModelC10
    ∧ allFieldsNameModelC10.modelFields = ["all fields"] := by
  refine ⟨rfl, ?_, ?_, ?_, by decide, rfl⟩
  · intro ms
    apply List.filter_congr
    intro x _
    show (x.field_name == "all fields" || x.field_name == ASTERISK_FIELD_NAME)
      = (x.field_name == "all fields")
    rw [show ASTERISK_FIELD_NAME = "all fields" from rfl, Bool.or_self]
  · intro m vname dec hmem
    unfold get_validator_field_mappings
    apply List.mem_append_right
    apply List.mem_map.mpr
    exact ⟨(vname, dec), hmem, rfl⟩
  · intro m vname dec hmem hstar
    unfold get_validator_field_mappings
    apply List.mem_append_left
    apply List.mem_flatMap.mpr
    refine ⟨(vname, dec), hmem, ?_⟩
    simp only [field_validator_rows]
    apply List.mem_map.mpr
    refine ⟨"*", hstar, ?_⟩
    rfl

/-- Witness for C10: the model-validator row and the wildcard row both
carry the `"all fields"` sentinel on concrete models. -/
theorem C10_witness :
    ({ field_name := ASTERISK_FIELD_NAME, validator_name := "mv",
       field_ref := model_path modelValModelC10 ++ (".")
         ++ ASTERISK_FIELD_NAME,
       validator_ref :=
         get_defining_class_path ⟨some ("M.mv"), some ("m"), none⟩
           modelValModelC10 ++ (".") ++ "mv" } : ValidatorFieldMap)
      ∈ get_validator_field_mappings modelValModelC10
    ∧ ({ field_name := ASTERISK_FIELD_NAME, validator_name := "v",
         field_ref := model_path wildcardModelC10 ++ (".")
           ++ ASTERISK_FIELD_NAME,
         validator_ref :=
           get_defining_class_path ⟨some ("M.v"), some ("m"), none⟩
             wildcardModelC10 ++ (".") ++ "v" } : ValidatorFieldMap)
      ∈ get_validator_field_mappings wildcardModelC10 :=
  ⟨C10_sentinel_shares_namespace.2.2.1 modelValModelC10 ("mv")
      ⟨⟨some ("M.mv"), some ("m"), none⟩, [], "before"⟩ (by decide),
    C10_sentinel_shares_namespace.2.2.2.1 wildcardModelC10 ("v")
      ⟨⟨some ("M.v"), some ("m"), none⟩, ["*"], "after"⟩
      (by decide) (by decide)⟩

/-- Claim C8: the validator extractor raises the not-a-model error for
non-model input; for a model it consults the field-level registry before
the model-level registry, raises the unknown-validator error exactly when
the name is in neither, and a field validator registered with an
unspecified mode yields a descriptor whose mode is `"after"`. -/
theorem C8_validator_lookup_order_and_errors :
    (∀ (r n : String),
        get_validator_info (.other r) n = .error (.typeError r))
    ∧ (∀ (m : PyModel) (n : String),
        get_validator_info (.model m) n = .error (.keyError n) ↔
          (m.fieldValidators.lookup n = none
            ∧ m.modelValidators.lookup n = none))
    ∧ (∀ (m : PyModel) (n : String) (dec : ValidatorDecorator),
        m.fieldValidators.lookup n = some dec →
        get_validator_info (.model m) n
          = .ok (field_validator_info m n dec))
    ∧ (∀ (m : PyModel) (n : String) (func : PyFunc) (fs : List String),
        m.fieldValidators.lookup n
            = some (field_validator_decorator func fs none) →
        ∃ info, get_validator_info (.model m) n = .ok info
          ∧ info.mode = "after" ∧ info.is_model_validator = false) := by
  refine ⟨fun r n => rfl, ?_, ?_, ?_⟩
  · intro m n
    unfold get_validator_info
    cases h1 : m.fieldValidators.lookup n <;>
      cases h2 : m.modelValidators.lookup n <;> simp [h1, h2]
  · intro m n dec h
    simp only [get_validator_info]
    rw [h]
  · intro m n func fs h
    refine ⟨field_validator_info m n (field_validator_decorator func fs none),
      ?_, rfl, rfl⟩
    simp only [get_validator_info]
    rw [h]

/-- Concrete model for the C8 witness: the name `v` is registered in both
the field-level and the model-level registry (with different modes), and
`v`'s field-level registration leaves the mode unspecified. -/
def lookupModelC8 : PyModel :=
  { module := "m", name := "M", qualname := "M", doc := none,
    mro := [⟨"m", "M", true, ["x"]⟩],
    modelFields := ["x"], computedFields := [],
    fieldValidators :=
      [("v", field_validator_decorator ⟨some ("M.v"), some ("m"), none⟩
          ["x"] none)],
    modelValidators :=
      [("v", ⟨⟨some ("M.v"), some ("m"), none⟩, [], "before"⟩),
       ("mv", ⟨⟨some ("M.mv"), some ("m"), none⟩, [], "before"⟩)],
    memberNames := ["x", "v", "mv"],
    isRootModel := false, isSettings := false }

/-- Witness for C8 at `lookupModelC8`: non-model input errors, the
field-level registration of `v` wins over the model-level one with mode
defaulted to `after`, and an unknown name raises the unknown-validator
error. -/
theorem C8_witness :
    get_validator_info (.other ("int")) ("v") = .error (.typeError ("int"))
    ∧ get_validator_info (.model lookupModelC8) ("v")
        = .ok (field_validator_info lookupModelC8 ("v")
            (field_validator_decorator ⟨some ("M.v"), some ("m"), none⟩
              ["x"] none))
    ∧ (∃ info, get_validator_info (.model lookupModelC8) ("v") = .ok info
        ∧ info.mode = "after" ∧ info.is_model_validator = false)
    ∧ get_validator_info (.model lookupModelC8) ("nope")
        = .error (.keyError ("nope")) :=
  ⟨C8_validator_lookup_order_and_errors.1 ("int") ("v"),
    C8_validator_lookup_order_and_errors.2.2.1 lookupModelC8 ("v")
      (field_validator_decorator ⟨some ("M.v"), some ("m"), none⟩ ["x"] none)
      (by decide),
    C8_validator_lookup_order_and_errors.2.2.2 lookupModelC8 ("v")
      ⟨some ("M.v"), some ("m"), none⟩ ["x"] (by decide),
    (C8_validator_lookup_order_and_errors.2.1 lookupModelC8 ("nope")).mpr
      ⟨by decide, by decide⟩⟩

/-- The `name: str` (required, no default) field of the C1 scenario. -/
def nameFieldC1 : FieldInfoR :=
  { name := "name", ann := .cls ("str"),
    default := .obj ("PydanticUndefined"),
    has_default := false, has_default_factory := false, is_required := true,
    aliasOpt := none, constraints := [] }

/-- The `count: int = 0` field of the C1 scenario. -/
def countFieldC1 : FieldInfoR :=
  { name := "count", ann := .cls ("int"), default := .int 0,
    has_default := true, has_default_factory := false, is_required := false,
    aliasOpt := none, constraints := [] }

/-- Claim C1 (refuted on the code): `generate_field_summary_table` emits
its data rows in the **input** order of the field list, not sorted
alphabetically by field name — for the batch `[name, count]` the
`` `name` `` row precedes the `` `count` `` row, and swapping the input
order changes the output. (The repository's own unit test
`test_fields_sorted_alphabetically_in_table` expects the alphabetical
order the claim states.) -/
theorem C1_rows_follow_input_order :
    generate_field_summary_table [nameFieldC1, countFieldC1]
        true true true true
      = ["", ".. list-table:: Fields", "   :header-rows: 1",
         "   :widths: auto", "",
         "   * - Field", "     - Type", "     - Required", "     - Default",
         "   * - ``name``", "     - ``str``", "     - Yes", "     - ",
         "   * - ``count``", "     - ``int``", "     - No", "     - ``0``",
         ""]
    ∧ generate_field_summary_table [nameFieldC1, countFieldC1]
          true true true true
        ≠ generate_field_summary_table [countFieldC1, nameFieldC1]
            true true true true := by
  constructor
  · rfl
  · decide

end SphinxPydantic
